import Mathlib

/-!
Shallow embedding of the Pigment-Finance core, translated from the source:

* `SavingsVault.sol` — the Account Ledger: per-address savings accounts,
  deposits, withdrawals, rate-limited automated saves, global pause.
* `VVSYieldStrategy.sol` — the Pool-Share Strategy: per-address liquidity
  share tracking against an external Uniswap-V2 style pool.
* `backend/src/agent/decision-engine.ts` — the Decision Engine: a pure
  evaluator computing whether and how much to auto-save.

Conventions:
* `uint256` becomes `Nat`; Solidity 0.8 checked arithmetic reverts on
  overflow/underflow, which we model with explicit guards against
  `U256 = 2 ^ 256` (and explicit underflow guards) that abort the
  operation, mirroring an arithmetic panic.
* Addresses (`address`, 160-bit) become `Nat`; the zero address is `0`.
* External collaborators (the USDC token transfers and the VVS router)
  are trusted black boxes per the spec: a transfer that the contract
  requests is assumed to succeed, and router results (e.g. minted
  liquidity) enter the model as operation parameters.  An external call
  that fails aborts the whole transaction with no state mutation, which
  in a trace model is indistinguishable from the operation being absent.
* Each external entry point returns `Except`; an `error` result models a
  revert, after which the pre-call state is unchanged (made explicit by
  the `run` functions, which keep the previous state on error).
-/

/-- Trust mode for AI automation (`SavingsVault.TrustMode`; also the
`trustMode` string field `AUTO`/`MANUAL` of the backend state). -/
inductive TrustMode where
  | MANUAL
  | AUTO
deriving DecidableEq, Repr

/-- Mirrors `struct UserAccount` in `SavingsVault.sol`. -/
structure UserAccount where
  totalDeposited : Nat
  totalWithdrawn : Nat
  currentBalance : Nat
  weeklyGoal : Nat
  safetyBuffer : Nat
  lastSaveTimestamp : Nat
  isActive : Bool
  trustMode : TrustMode
deriving DecidableEq, Repr

/-- The distinct revert reasons of `SavingsVault.sol` (plus the
OpenZeppelin `Pausable`/`Ownable` reverts and arithmetic panics). -/
inductive VaultError where
  | invalidAmount
  | insufficientBalance
  | accountNotActive
  | unauthorizedCaller
  | saveIntervalNotMet
  | amountExceedsLimit
  | zeroAddress
  | goalNotPositive
  | accountAlreadyExists
  | enforcedPause
  | expectedPause
  | notOwner
  | overflow
  | underflow
deriving DecidableEq, Repr

/-- Contract storage of `SavingsVault` (the immutable `usdc` token address
is an external collaborator and is not part of the model). -/
structure VaultState where
  accounts : Nat → UserAccount
  totalValueLocked : Nat
  yieldStrategy : Nat
  x402Executor : Nat
  owner : Nat
  paused : Bool

/-- Overflow bound of `uint256` checked arithmetic. -/
def U256 : Nat := 2 ^ 256

namespace SavingsVault

/-- `MIN_DEPOSIT = 1e6` (1 USDC, 6 decimals). -/
def MIN_DEPOSIT : Nat := 1000000

/-- `MAX_SAVE_AMOUNT = 10000e6` (10,000 USDC). -/
def MAX_SAVE_AMOUNT : Nat := 10000000000

/-- `MIN_SAVE_INTERVAL = 1 days` (86400 seconds). -/
def MIN_SAVE_INTERVAL : Nat := 86400

/-- The default value of `mapping(address => UserAccount)`: a zeroed
struct, inactive, trust mode `MANUAL` (enum value 0). -/
def emptyAccount : UserAccount :=
  { totalDeposited := 0, totalWithdrawn := 0, currentBalance := 0,
    weeklyGoal := 0, safetyBuffer := 0, lastSaveTimestamp := 0,
    isActive := false, trustMode := TrustMode.MANUAL }

/-- Post-constructor state: empty account mapping, zero TVL, unset
strategy/executor addresses, deployer as owner, not paused. -/
def init (deployer : Nat) : VaultState :=
  { accounts := fun _ => emptyAccount, totalValueLocked := 0,
    yieldStrategy := 0, x402Executor := 0, owner := deployer,
    paused := false }

/-- `createAccount(weeklyGoal, safetyBuffer, trustMode)` — note: it has
no `whenNotPaused` modifier in the source. -/
def createAccount (s : VaultState) (sender weeklyGoal safetyBuffer : Nat)
    (trustMode : TrustMode) : Except VaultError VaultState :=
  if (s.accounts sender).isActive = true then .error .accountAlreadyExists
  else if weeklyGoal = 0 then .error .goalNotPositive
  else .ok { s with
    accounts := Function.update s.accounts sender
      ({ totalDeposited := 0, totalWithdrawn := 0, currentBalance := 0,
         weeklyGoal := weeklyGoal, safetyBuffer := safetyBuffer,
         lastSaveTimestamp := 0, isActive := true, trustMode := trustMode }) }

/-- `deposit(amount)` with modifiers `nonReentrant whenNotPaused`.  The
`usdc.safeTransferFrom` call is the trusted settlement collaborator. -/
def deposit (s : VaultState) (sender amount : Nat) :
    Except VaultError VaultState :=
  if s.paused = true then .error .enforcedPause
  else if amount < MIN_DEPOSIT then .error .invalidAmount
  else if (s.accounts sender).isActive = false then .error .accountNotActive
  else if U256 ≤ (s.accounts sender).totalDeposited + amount then .error .overflow
  else if U256 ≤ (s.accounts sender).currentBalance + amount then .error .overflow
  else if U256 ≤ s.totalValueLocked + amount then .error .overflow
  else .ok { s with
    accounts := Function.update s.accounts sender
      ({ s.accounts sender with
         totalDeposited := (s.accounts sender).totalDeposited + amount,
         currentBalance := (s.accounts sender).currentBalance + amount }),
    totalValueLocked := s.totalValueLocked + amount }

/-- `withdraw(amount)` with modifiers `nonReentrant whenNotPaused`. -/
def withdraw (s : VaultState) (sender amount : Nat) :
    Except VaultError VaultState :=
  if s.paused = true then .error .enforcedPause
  else if amount = 0 then .error .invalidAmount
  else if (s.accounts sender).isActive = false then .error .accountNotActive
  else if (s.accounts sender).currentBalance < amount then .error .insufficientBalance
  else if U256 ≤ (s.accounts sender).totalWithdrawn + amount then .error .overflow
  else if s.totalValueLocked < amount then .error .underflow
  else .ok { s with
    accounts := Function.update s.accounts sender
      ({ s.accounts sender with
         totalWithdrawn := (s.accounts sender).totalWithdrawn + amount,
         currentBalance := (s.accounts sender).currentBalance - amount }),
    totalValueLocked := s.totalValueLocked - amount }

/-- `updateGoal(newWeeklyGoal)` — no pause gate in the source. -/
def updateGoal (s : VaultState) (sender newWeeklyGoal : Nat) :
    Except VaultError VaultState :=
  if (s.accounts sender).isActive = false then .error .accountNotActive
  else if newWeeklyGoal = 0 then .error .goalNotPositive
  else .ok { s with
    accounts := Function.update s.accounts sender
      ({ s.accounts sender with weeklyGoal := newWeeklyGoal }) }

/-- `updateTrustMode(newMode)` — no pause gate in the source. -/
def updateTrustMode (s : VaultState) (sender : Nat) (newMode : TrustMode) :
    Except VaultError VaultState :=
  if (s.accounts sender).isActive = false then .error .accountNotActive
  else .ok { s with
    accounts := Function.update s.accounts sender
      ({ s.accounts sender with trustMode := newMode }) }

/-- `autoSave(user, amount)` with modifiers `nonReentrant whenNotPaused`;
`now` is `block.timestamp`.  The `usdc.safeTransferFrom(user, vault)`
pull is the trusted settlement collaborator. -/
def autoSave (s : VaultState) (sender user amount now : Nat) :
    Except VaultError VaultState :=
  if s.paused = true then .error .enforcedPause
  else if (s.accounts user).isActive = false then .error .accountNotActive
  else if amount = 0 ∨ MAX_SAVE_AMOUNT < amount then .error .amountExceedsLimit
  else if (if (s.accounts user).trustMode = TrustMode.AUTO
           then sender ≠ s.x402Executor else sender ≠ user) then
    .error .unauthorizedCaller
  else if U256 ≤ (s.accounts user).lastSaveTimestamp + MIN_SAVE_INTERVAL then
    .error .overflow
  else if now < (s.accounts user).lastSaveTimestamp + MIN_SAVE_INTERVAL then
    .error .saveIntervalNotMet
  else if U256 ≤ (s.accounts user).totalDeposited + amount then .error .overflow
  else if U256 ≤ (s.accounts user).currentBalance + amount then .error .overflow
  else if U256 ≤ s.totalValueLocked + amount then .error .overflow
  else .ok { s with
    accounts := Function.update s.accounts user
      ({ s.accounts user with
         totalDeposited := (s.accounts user).totalDeposited + amount,
         currentBalance := (s.accounts user).currentBalance + amount,
         lastSaveTimestamp := now }),
    totalValueLocked := s.totalValueLocked + amount }

/-- View `getAccount(user)`. -/
def getAccount (s : VaultState) (user : Nat) : UserAccount :=
  s.accounts user

/-- View `canAutoSave(user)` at time `now`. -/
def canAutoSave (s : VaultState) (user now : Nat) : Bool :=
  if (s.accounts user).isActive = false then false
  else decide ((s.accounts user).lastSaveTimestamp + MIN_SAVE_INTERVAL ≤ now)

/-- `setYieldStrategy(_yieldStrategy)`, `onlyOwner`. -/
def setYieldStrategy (s : VaultState) (sender addr : Nat) :
    Except VaultError VaultState :=
  if sender ≠ s.owner then .error .notOwner
  else if addr = 0 then .error .zeroAddress
  else .ok { s with yieldStrategy := addr }

/-- `setX402Executor(_x402Executor)`, `onlyOwner`. -/
def setX402Executor (s : VaultState) (sender addr : Nat) :
    Except VaultError VaultState :=
  if sender ≠ s.owner then .error .notOwner
  else if addr = 0 then .error .zeroAddress
  else .ok { s with x402Executor := addr }

/-- `pause()`, `onlyOwner`; OpenZeppelin `_pause` requires not paused. -/
def pause (s : VaultState) (sender : Nat) : Except VaultError VaultState :=
  if sender ≠ s.owner then .error .notOwner
  else if s.paused = true then .error .enforcedPause
  else .ok { s with paused := true }

/-- `unpause()`, `onlyOwner`; OpenZeppelin `_unpause` requires paused. -/
def unpause (s : VaultState) (sender : Nat) : Except VaultError VaultState :=
  if sender ≠ s.owner then .error .notOwner
  else if s.paused = false then .error .expectedPause
  else .ok { s with paused := false }

end SavingsVault

/-- One external transaction against the vault; the first `Nat` argument
is always `msg.sender`, and `autoSave` additionally carries
`block.timestamp`. -/
inductive VOp where
  | createAccount (sender weeklyGoal safetyBuffer : Nat) (trustMode : TrustMode)
  | deposit (sender amount : Nat)
  | withdraw (sender amount : Nat)
  | updateGoal (sender newWeeklyGoal : Nat)
  | updateTrustMode (sender : Nat) (newMode : TrustMode)
  | autoSave (sender user amount now : Nat)
  | setYieldStrategy (sender addr : Nat)
  | setX402Executor (sender addr : Nat)
  | pause (sender : Nat)
  | unpause (sender : Nat)
deriving DecidableEq, Repr

namespace SavingsVault

/-- Dispatch one transaction. -/
def vaultStep (s : VaultState) : VOp → Except VaultError VaultState
  | .createAccount sender g b tm => createAccount s sender g b tm
  | .deposit sender amount => deposit s sender amount
  | .withdraw sender amount => withdraw s sender amount
  | .updateGoal sender g => updateGoal s sender g
  | .updateTrustMode sender tm => updateTrustMode s sender tm
  | .autoSave sender user amount now => autoSave s sender user amount now
  | .setYieldStrategy sender a => setYieldStrategy s sender a
  | .setX402Executor sender a => setX402Executor s sender a
  | .pause sender => pause s sender
  | .unpause sender => unpause s sender

/-- The state after one transaction: a reverted transaction leaves the
state unchanged. -/
def stepState (s : VaultState) (op : VOp) : VaultState :=
  match vaultStep s op with
  | .ok s' => s'
  | .error _ => s

/-- Run a sequence of transactions. -/
def vaultRun (s : VaultState) : List VOp → VaultState
  | [] => s
  | op :: ops => vaultRun (stepState s op) ops

/-- Whether `op` is a `createAccount` transaction sent by `u`. -/
def isCreateBy (u : Nat) : VOp → Bool
  | .createAccount sender _ _ _ => sender == u
  | _ => false

/-- The `autoSave` authorization rule: in `AUTO` mode only the configured
x402 executor may call, in `MANUAL` mode only the user themselves. -/
def autoSaveAuthorized (s : VaultState) (sender user : Nat) : Prop :=
  if (s.accounts user).trustMode = TrustMode.AUTO
  then sender = s.x402Executor else sender = user

end SavingsVault

/-- The distinct revert reasons of `VVSYieldStrategy.sol` (plus the
`Ownable` revert and arithmetic panics). -/
inductive StratError where
  | zeroAddress
  | zeroAmount
  | onlyVault
  | insufficientLiquidity
  | slippageTooHigh
  | notOwner
  | overflow
  | underflow
deriving DecidableEq, Repr

/-- Contract storage of `VVSYieldStrategy` (the immutable router, token
and pair addresses are external collaborators, not part of the model). -/
structure StratState where
  s_userLiquidityTokens : Nat → Nat
  s_totalLiquidityTokens : Nat
  s_savingsVault : Nat
  s_slippageTolerance : Nat
  owner : Nat

namespace VVSYieldStrategy

/-- Post-constructor state: no shares, `s_slippageTolerance = 50`
(0.5%), `s_savingsVault` unset, deployer as owner. -/
def init (deployer : Nat) : StratState :=
  { s_userLiquidityTokens := fun _ => 0, s_totalLiquidityTokens := 0,
    s_savingsVault := 0, s_slippageTolerance := 50, owner := deployer }

/-- `deposit(user, amount)`, `onlyVault nonReentrant`.  The swap and
`addLiquidity` calls are external pool operations; `liquidityMinted` is
the share amount the router reports on success (an external-call
failure, including a slippage-bound violation, reverts the whole call
before any share bookkeeping, leaving the state untouched). -/
def deposit (s : StratState) (sender user amount liquidityMinted : Nat) :
    Except StratError StratState :=
  if sender ≠ s.s_savingsVault then .error .onlyVault
  else if amount = 0 then .error .zeroAmount
  else if U256 ≤ s.s_userLiquidityTokens user + liquidityMinted then .error .overflow
  else if U256 ≤ s.s_totalLiquidityTokens + liquidityMinted then .error .overflow
  else .ok { s with
    s_userLiquidityTokens := Function.update s.s_userLiquidityTokens user
      (s.s_userLiquidityTokens user + liquidityMinted),
    s_totalLiquidityTokens := s.s_totalLiquidityTokens + liquidityMinted }

/-- `withdraw(user, liquidityTokens)`, `onlyVault nonReentrant`.  The
`removeLiquidity` and swap-back calls are external pool operations whose
returned USDC goes straight back to the vault and does not enter this
contract's stored state. -/
def withdraw (s : StratState) (sender user liquidityTokens : Nat) :
    Except StratError StratState :=
  if sender ≠ s.s_savingsVault then .error .onlyVault
  else if liquidityTokens = 0 then .error .zeroAmount
  else if s.s_userLiquidityTokens user < liquidityTokens then
    .error .insufficientLiquidity
  else if s.s_totalLiquidityTokens < liquidityTokens then .error .underflow
  else .ok { s with
    s_userLiquidityTokens := Function.update s.s_userLiquidityTokens user
      (s.s_userLiquidityTokens user - liquidityTokens),
    s_totalLiquidityTokens := s.s_totalLiquidityTokens - liquidityTokens }

/-- `setSavingsVault(_savingsVault)`, `onlyOwner`. -/
def setSavingsVault (s : StratState) (sender addr : Nat) :
    Except StratError StratState :=
  if sender ≠ s.owner then .error .notOwner
  else if addr = 0 then .error .zeroAddress
  else .ok { s with s_savingsVault := addr }

/-- `setSlippageTolerance(_slippageTolerance)`, `onlyOwner`: rejects
values above 500 basis points (5%). -/
def setSlippageTolerance (s : StratState) (sender bps : Nat) :
    Except StratError StratState :=
  if sender ≠ s.owner then .error .notOwner
  else if 500 < bps then .error .slippageTooHigh
  else .ok { s with s_slippageTolerance := bps }

end VVSYieldStrategy

/-- One external transaction against the strategy; the first `Nat` is
`msg.sender`.  `deposit` carries the liquidity amount the external
router mints for the contributed funds. -/
inductive SOp where
  | deposit (sender user amount liquidityMinted : Nat)
  | withdraw (sender user liquidityTokens : Nat)
  | setSavingsVault (sender addr : Nat)
  | setSlippageTolerance (sender bps : Nat)
deriving DecidableEq, Repr

namespace VVSYieldStrategy

/-- Dispatch one transaction. -/
def stratStep (s : StratState) : SOp → Except StratError StratState
  | .deposit sender user amount liq => deposit s sender user amount liq
  | .withdraw sender user liq => withdraw s sender user liq
  | .setSavingsVault sender a => setSavingsVault s sender a
  | .setSlippageTolerance sender bps => setSlippageTolerance s sender bps

/-- The state after one transaction: a reverted transaction leaves the
state unchanged. -/
def stepState (s : StratState) (op : SOp) : StratState :=
  match stratStep s op with
  | .ok s' => s'
  | .error _ => s

/-- Run a sequence of transactions. -/
def stratRun (s : StratState) : List SOp → StratState
  | [] => s
  | op :: ops => stratRun (stepState s op) ops

end VVSYieldStrategy

/-- Decision strategy profiles (`DecisionStrategy` in the backend). -/
inductive DecisionStrategy where
  | CONSERVATIVE
  | BALANCED
  | AGGRESSIVE
deriving DecidableEq, Repr

/-- The snapshot `UserFinancialState` consumed by the decision engine
(fields as constructed in the backend; `timeSinceLastSave` is in hours).
All monetary fields are 6-decimal fixed-point USDC amounts (`bigint` in
the source, nonnegative in every construction site). -/
structure UserFinancialState where
  walletBalance : Nat
  currentSavings : Nat
  weeklyGoal : Nat
  safetyBuffer : Nat
  lastSaveTimestamp : Nat
  trustMode : TrustMode
  isActive : Bool
  canAutoSave : Bool
  timeSinceLastSave : Nat
deriving DecidableEq, Repr

/-- Urgency levels of a save decision. -/
inductive Urgency where
  | low
  | medium
  | high
deriving DecidableEq, Repr

/-- The decision output.  The source also carries a human-readable
`reason` string and a floating-point `confidence` in [0, 1]; both are
display-only outputs (spec §4.3: only `confidence` is a floating ratio
intended for display) and are not part of this integer model. -/
structure SaveDecision where
  shouldSave : Bool
  amount : Nat
  urgency : Urgency
deriving DecidableEq, Repr

/-- `DecisionContext`: strategy profile and thresholds.  The source
stores `maxSavePercentage` as the float fraction `0.5` and uses it only
as `BigInt(maxSavePercentage * 100)`; we store that integer percentage
(default `50`) directly. -/
structure DecisionContext where
  strategy : DecisionStrategy
  minSaveAmount : Nat
  maxSavePercentage : Nat
deriving DecidableEq, Repr

namespace DecisionEngine

/-- The constructor defaults: BALANCED, 1 USDC minimum, 50%. -/
def defaultContext : DecisionContext :=
  { strategy := DecisionStrategy.BALANCED, minSaveAmount := 1000000,
    maxSavePercentage := 50 }

/-- `calculateAvailableFunds`: `walletBalance - safetyBuffer`, clamped
at zero (which is exactly `Nat` subtraction). -/
def calculateAvailableFunds (st : UserFinancialState) : Nat :=
  st.walletBalance - st.safetyBuffer

/-- `conservativeStrategy`: zero below twice the safety buffer, else
`min(25% of available, weeklyGoal)`. -/
def conservativeStrategy (_ctx : DecisionContext) (st : UserFinancialState)
    (availableFunds : Nat) : Nat :=
  if st.walletBalance < st.safetyBuffer * 2 then 0
  else min (availableFunds * 25 / 100) st.weeklyGoal

/-- `balancedStrategy`: `min(maxSavePercentage of available, weeklyGoal,
availableFunds)`. -/
def balancedStrategy (ctx : DecisionContext) (st : UserFinancialState)
    (availableFunds : Nat) : Nat :=
  min (min (availableFunds * ctx.maxSavePercentage / 100) st.weeklyGoal)
    availableFunds

/-- `aggressiveStrategy`: `min(80% of available, weeklyGoal)`. -/
def aggressiveStrategy (_ctx : DecisionContext) (st : UserFinancialState)
    (availableFunds : Nat) : Nat :=
  min (availableFunds * 80 / 100) st.weeklyGoal

/-- `calculateOptimalAmount`: dispatch on the strategy profile (the
`default` case of the source `switch` also falls back to BALANCED). -/
def calculateOptimalAmount (ctx : DecisionContext) (st : UserFinancialState)
    (availableFunds : Nat) : Nat :=
  match ctx.strategy with
  | .CONSERVATIVE => conservativeStrategy ctx st availableFunds
  | .BALANCED => balancedStrategy ctx st availableFunds
  | .AGGRESSIVE => aggressiveStrategy ctx st availableFunds

/-- `calculateUrgency`: HIGH after 168h with an amount of at least half
the weekly goal, MEDIUM after 72h, else LOW. -/
def calculateUrgency (st : UserFinancialState) (amount : Nat) : Urgency :=
  if 168 ≤ st.timeSinceLastSave ∧ st.weeklyGoal / 2 ≤ amount then .high
  else if 72 ≤ st.timeSinceLastSave then .medium
  else .low

/-- `decide(state)`: the three `preChecks` short-circuits (inactive,
not AUTO, rate-limited) are inlined, then available funds, the
strategy's optimal amount, and the final decision exactly as in the
source (`amount` is the optimal amount when saving, else `0n`). -/
def decide (ctx : DecisionContext) (st : UserFinancialState) : SaveDecision :=
  if st.isActive = false then
    { shouldSave := false, amount := 0, urgency := .low }
  else if st.trustMode ≠ TrustMode.AUTO then
    { shouldSave := false, amount := 0, urgency := .low }
  else if st.canAutoSave = false then
    { shouldSave := false, amount := 0, urgency := .low }
  else if calculateAvailableFunds st < ctx.minSaveAmount then
    { shouldSave := false, amount := 0, urgency := .low }
  else
    { shouldSave := Decidable.decide (ctx.minSaveAmount ≤
        calculateOptimalAmount ctx st (calculateAvailableFunds st)),
      amount := if ctx.minSaveAmount ≤
          calculateOptimalAmount ctx st (calculateAvailableFunds st)
        then calculateOptimalAmount ctx st (calculateAvailableFunds st)
        else 0,
      urgency := calculateUrgency st
        (calculateOptimalAmount ctx st (calculateAvailableFunds st)) }

end DecisionEngine

/-- The per-account bookkeeping invariant of spec §3/§8:
`currentBalance == totalDeposited − totalWithdrawn ≥ 0`, phrased over
`Nat` as `totalWithdrawn ≤ totalDeposited` together with
`currentBalance + totalWithdrawn = totalDeposited`. -/
def accInv (a : UserAccount) : Prop :=
  a.totalWithdrawn ≤ a.totalDeposited ∧
    a.currentBalance + a.totalWithdrawn = a.totalDeposited

/-- `S` contains every address at which `f` is nonzero. -/
def coversSupport (f : Nat → Nat) (S : Finset Nat) : Prop :=
  ∀ a : Nat, a ∉ S → f a = 0

/-- The balances `f` sum to the aggregate `T`: `f` has finite support
and over every finite set covering that support the sum is `T`. -/
def sumsTo (f : Nat → Nat) (T : Nat) : Prop :=
  (∃ S : Finset Nat, coversSupport f S) ∧
    ∀ S : Finset Nat, coversSupport f S → S.sum f = T

/-- The ledger-held balance of each address: `currentBalance` for active
accounts, `0` otherwise (inactive accounts hold no ledger funds). -/
def activeBal (s : VaultState) : Nat → Nat :=
  fun a =>
    if (s.accounts a).isActive = true then (s.accounts a).currentBalance else 0

/-- A vault state with one active AUTO-mode account at address 1 and the
x402 executor configured at address 7; used to witness the
authorization claims. -/
def demoVault3 : VaultState :=
  { accounts := Function.update (fun _ => SavingsVault.emptyAccount) 1
      ({ totalDeposited := 0, totalWithdrawn := 0, currentBalance := 0,
         weeklyGoal := 100000000, safetyBuffer := 50000000,
         lastSaveTimestamp := 0, isActive := true,
         trustMode := TrustMode.AUTO }),
    totalValueLocked := 0, yieldStrategy := 0, x402Executor := 7,
    owner := 0, paused := false }

/-- Like `demoVault3` but the account has already auto-saved at time
1000; used to witness the rate-limit claim. -/
def demoVault4 : VaultState :=
  { accounts := Function.update (fun _ => SavingsVault.emptyAccount) 1
      ({ totalDeposited := 5000000, totalWithdrawn := 0,
         currentBalance := 5000000, weeklyGoal := 100000000,
         safetyBuffer := 50000000, lastSaveTimestamp := 1000,
         isActive := true, trustMode := TrustMode.AUTO }),
    totalValueLocked := 5000000, yieldStrategy := 0, x402Executor := 7,
    owner := 0, paused := false }

/-- A paused vault with one active MANUAL-mode account at address 1;
used for the pause-gating claim. -/
def demoVault5 : VaultState :=
  { accounts := Function.update (fun _ => SavingsVault.emptyAccount) 1
      ({ totalDeposited := 0, totalWithdrawn := 0, currentBalance := 0,
         weeklyGoal := 100000000, safetyBuffer := 50000000,
         lastSaveTimestamp := 0, isActive := true,
         trustMode := TrustMode.MANUAL }),
    totalValueLocked := 0, yieldStrategy := 0, x402Executor := 7,
    owner := 0, paused := true }

/-- A vault with an active AUTO-mode account at address 1 that has never
auto-saved (`lastSaveTimestamp = 0`), executor at address 5; used for
the first-auto-save claim. -/
def demoVault6 : VaultState :=
  { accounts := Function.update (fun _ => SavingsVault.emptyAccount) 1
      ({ totalDeposited := 0, totalWithdrawn := 0, currentBalance := 0,
         weeklyGoal := 100000000, safetyBuffer := 50000000,
         lastSaveTimestamp := 0, isActive := true,
         trustMode := TrustMode.AUTO }),
    totalValueLocked := 0, yieldStrategy := 0, x402Executor := 5,
    owner := 0, paused := false }

/-- Scenario D of spec §8: wallet 1000.00, buffer 100.00, weekly goal
25.00 (6-decimal fixed point), active AUTO account past its rate
limit. -/
def scenarioD : UserFinancialState :=
  { walletBalance := 1000000000, currentSavings := 100000000,
    weeklyGoal := 25000000, safetyBuffer := 100000000,
    lastSaveTimestamp := 0, trustMode := TrustMode.AUTO,
    isActive := true, canAutoSave := true, timeSinceLastSave := 48 }

/-- A freshly deployed strategy owned by address 0; used to witness the
slippage-tolerance claim. -/
def demoStrat : StratState := VVSYieldStrategy.init 0

/-- Every two finite sets covering the support of `f` give the same
sum: both agree with the sum over their union. -/
theorem covers_sum_eq {f : Nat → Nat} {S S' : Finset Nat}
    (hS : coversSupport f S) (hS' : coversSupport f S') :
    S.sum f = S'.sum f := by
  have h1 : S.sum f = (S ∪ S').sum f :=
    Finset.sum_subset Finset.subset_union_left (fun x _ hx => hS x hx)
  have h2 : S'.sum f = (S ∪ S').sum f :=
    Finset.sum_subset Finset.subset_union_right (fun x _ hx => hS' x hx)
  rw [h1, h2]

/-- Each individual balance is at most the aggregate. -/
theorem sumsTo_apply_le {f : Nat → Nat} {T : Nat} (h : sumsTo f T)
    (u : Nat) : f u ≤ T := by
  obtain ⟨⟨S, hS⟩, hall⟩ := h
  have hcov : coversSupport f (insert u S) := by
    intro a ha
    exact hS a (fun haS => ha (Finset.mem_insert_of_mem haS))
  calc f u ≤ (insert u S).sum f :=
        Finset.single_le_sum (fun i _ => Nat.zero_le (f i))
          (Finset.mem_insert_self u S)
    _ = T := hall _ hcov

/-- Updating one entry moves the aggregate by the same delta. -/
theorem sumsTo_update {f : Nat → Nat} {T : Nat} (h : sumsTo f T)
    (u v : Nat) : sumsTo (Function.update f u v) (T - f u + v) := by
  have hfu : f u ≤ T := sumsTo_apply_le h u
  obtain ⟨⟨S₀, hS₀⟩, hall⟩ := h
  constructor
  · refine ⟨insert u S₀, fun a ha => ?_⟩
    have hne : a ≠ u := fun e => ha (e ▸ Finset.mem_insert_self u S₀)
    rw [Function.update_noteq hne]
    exact hS₀ a (fun haS => ha (Finset.mem_insert_of_mem haS))
  · intro S hS
    by_cases hu : u ∈ S
    · have hSf : coversSupport f S := by
        intro a ha
        have hne : a ≠ u := fun e => ha (by rw [e]; exact hu)
        have h0 := hS a ha
        rwa [Function.update_noteq hne] at h0
      have hTS : S.sum f = T := hall S hSf
      have e1 : f u + (S.erase u).sum f = S.sum f :=
        Finset.add_sum_erase S f hu
      have e2 : Function.update f u v u +
          (S.erase u).sum (Function.update f u v) =
          S.sum (Function.update f u v) :=
        Finset.add_sum_erase S (Function.update f u v) hu
      have e3 : (S.erase u).sum (Function.update f u v) =
          (S.erase u).sum f :=
        Finset.sum_congr rfl (fun x hx =>
          Function.update_noteq (Finset.ne_of_mem_erase hx) v f)
      rw [Function.update_same] at e2
      omega
    · have hv0 : v = 0 := by
        have h0 := hS u hu
        rwa [Function.update_same] at h0
      have hSf : coversSupport f (insert u S) := by
        intro a ha
        have hne : a ≠ u := fun e => ha (e ▸ Finset.mem_insert_self u S)
        have haS : a ∉ S := fun h' => ha (Finset.mem_insert_of_mem h')
        have h0 := hS a haS
        rwa [Function.update_noteq hne] at h0
      have hT : (insert u S).sum f = T := hall _ hSf
      have e1 : (insert u S).sum f = f u + S.sum f := Finset.sum_insert hu
      have e2 : S.sum (Function.update f u v) = S.sum f :=
        Finset.sum_congr rfl (fun x hx =>
          Function.update_noteq (fun e => hu (by rw [← e]; exact hx)) v f)
      omega

set_option maxHeartbeats 1000000 in
/-- Every successful vault transaction preserves the per-account
bookkeeping invariant. -/
theorem vaultStep_accInv {s s' : VaultState} {op : VOp}
    (h : SavingsVault.vaultStep s op = .ok s')
    (hs : ∀ u, accInv (s.accounts u)) (u : Nat) : accInv (s'.accounts u) := by
  cases op with
  | createAccount sender g b tm =>
    simp only [SavingsVault.vaultStep, SavingsVault.createAccount] at h
    split_ifs at h
    injection h with h'
    subst h'
    by_cases hu : u = sender
    · subst hu
      simp [Function.update_same, accInv]
    · have h1 := hs u
      simp only [accInv] at h1 ⊢
      simp only [Function.update_noteq hu]
      omega
  | deposit sender amount =>
    simp only [SavingsVault.vaultStep, SavingsVault.deposit] at h
    split_ifs at h
    injection h with h'
    subst h'
    by_cases hu : u = sender
    · subst hu
      have h1 := hs u
      simp only [accInv] at h1 ⊢
      simp only [Function.update_same]
      omega
    · have h1 := hs u
      simp only [accInv] at h1 ⊢
      simp only [Function.update_noteq hu]
      omega
  | withdraw sender amount =>
    simp only [SavingsVault.vaultStep, SavingsVault.withdraw] at h
    split_ifs at h with hp hz ha hb ho ht
    injection h with h'
    subst h'
    by_cases hu : u = sender
    · subst hu
      have h1 := hs u
      simp only [accInv] at h1 ⊢
      simp only [Function.update_same]
      omega
    · have h1 := hs u
      simp only [accInv] at h1 ⊢
      simp only [Function.update_noteq hu]
      omega
  | updateGoal sender g =>
    simp only [SavingsVault.vaultStep, SavingsVault.updateGoal] at h
    split_ifs at h
    injection h with h'
    subst h'
    by_cases hu : u = sender
    · subst hu
      have h1 := hs u
      simp only [accInv] at h1 ⊢
      simp only [Function.update_same]
      omega
    · have h1 := hs u
      simp only [accInv] at h1 ⊢
      simp only [Function.update_noteq hu]
      omega
  | updateTrustMode sender tm =>
    simp only [SavingsVault.vaultStep, SavingsVault.updateTrustMode] at h
    split_ifs at h
    injection h with h'
    subst h'
    by_cases hu : u = sender
    · subst hu
      have h1 := hs u
      simp only [accInv] at h1 ⊢
      simp only [Function.update_same]
      omega
    · have h1 := hs u
      simp only [accInv] at h1 ⊢
      simp only [Function.update_noteq hu]
      omega
  | autoSave sender user amount now =>
    simp only [SavingsVault.vaultStep, SavingsVault.autoSave] at h
    split_ifs at h
    all_goals (
      injection h with h'
      subst h'
      by_cases hu : u = user
      · subst hu
        have h1 := hs u
        simp only [accInv] at h1 ⊢
        simp only [Function.update_same]
        omega
      · have h1 := hs u
        simp only [accInv] at h1 ⊢
        simp only [Function.update_noteq hu]
        omega)
  | setYieldStrategy sender a =>
    simp only [SavingsVault.vaultStep, SavingsVault.setYieldStrategy] at h
    split_ifs at h
    injection h with h'
    subst h'
    exact hs u
  | setX402Executor sender a =>
    simp only [SavingsVault.vaultStep, SavingsVault.setX402Executor] at h
    split_ifs at h
    injection h with h'
    subst h'
    exact hs u
  | pause sender =>
    simp only [SavingsVault.vaultStep, SavingsVault.pause] at h
    split_ifs at h
    injection h with h'
    subst h'
    exact hs u
  | unpause sender =>
    simp only [SavingsVault.vaultStep, SavingsVault.unpause] at h
    split_ifs at h
    injection h with h'
    subst h'
    exact hs u

/-- Updating one account updates the ledger-held balance map pointwise. -/
theorem activeBal_eq_update {s s' : VaultState} {sender : Nat}
    {acct : UserAccount}
    (hacc : s'.accounts = Function.update s.accounts sender acct) :
    activeBal s' = Function.update (activeBal s) sender
      (if acct.isActive = true then acct.currentBalance else 0) := by
  funext a
  by_cases hu : a = sender
  · subst hu
    simp [activeBal, hacc, Function.update_same]
  · simp [activeBal, hacc, Function.update_noteq hu]

set_option maxHeartbeats 1000000 in
/-- Every successful vault transaction keeps `totalValueLocked` equal to
the sum of `currentBalance` over active accounts. -/
theorem vaultStep_tvl {s s' : VaultState} {op : VOp}
    (h : SavingsVault.vaultStep s op = .ok s')
    (hs : sumsTo (activeBal s) s.totalValueLocked) :
    sumsTo (activeBal s') s'.totalValueLocked := by
  cases op with
  | createAccount sender g b tm =>
    simp only [SavingsVault.vaultStep, SavingsVault.createAccount] at h
    split_ifs at h with h1 h2
    injection h with h'
    subst h'
    have habal : activeBal s sender = 0 := by
      simp only [Bool.not_eq_true] at h1
      simp [activeBal, h1]
    rw [activeBal_eq_update rfl]
    have hupd := sumsTo_update hs sender 0
    simpa [habal] using hupd
  | deposit sender amount =>
    simp only [SavingsVault.vaultStep, SavingsVault.deposit] at h
    split_ifs at h with h1 h2 h3 h4 h5 h6
    injection h with h'
    subst h'
    simp only [Bool.not_eq_false] at h3
    have hble := sumsTo_apply_le hs sender
    have habal : activeBal s sender = (s.accounts sender).currentBalance := by
      simp [activeBal, h3]
    rw [activeBal_eq_update rfl]
    have hupd := sumsTo_update hs sender
      ((s.accounts sender).currentBalance + amount)
    have hV : (if ({ s.accounts sender with
        totalDeposited := (s.accounts sender).totalDeposited + amount,
        currentBalance := (s.accounts sender).currentBalance + amount
        } : UserAccount).isActive = true
        then ({ s.accounts sender with
          totalDeposited := (s.accounts sender).totalDeposited + amount,
          currentBalance := (s.accounts sender).currentBalance + amount
          } : UserAccount).currentBalance else 0)
        = (s.accounts sender).currentBalance + amount := by
      simp [h3]
    rw [hV]
    have htot : s.totalValueLocked - activeBal s sender +
        ((s.accounts sender).currentBalance + amount) =
        s.totalValueLocked + amount := by
      rw [habal] at hble ⊢
      omega
    rw [← htot]
    exact hupd
  | withdraw sender amount =>
    simp only [SavingsVault.vaultStep, SavingsVault.withdraw] at h
    split_ifs at h with h1 h2 h3 h4 h5 h6
    injection h with h'
    subst h'
    simp only [Bool.not_eq_false] at h3
    have hble := sumsTo_apply_le hs sender
    have habal : activeBal s sender = (s.accounts sender).currentBalance := by
      simp [activeBal, h3]
    rw [activeBal_eq_update rfl]
    have hupd := sumsTo_update hs sender
      ((s.accounts sender).currentBalance - amount)
    have hV : (if ({ s.accounts sender with
        totalWithdrawn := (s.accounts sender).totalWithdrawn + amount,
        currentBalance := (s.accounts sender).currentBalance - amount
        } : UserAccount).isActive = true
        then ({ s.accounts sender with
          totalWithdrawn := (s.accounts sender).totalWithdrawn + amount,
          currentBalance := (s.accounts sender).currentBalance - amount
          } : UserAccount).currentBalance else 0)
        = (s.accounts sender).currentBalance - amount := by
      simp [h3]
    rw [hV]
    have htot : s.totalValueLocked - activeBal s sender +
        ((s.accounts sender).currentBalance - amount) =
        s.totalValueLocked - amount := by
      rw [habal] at hble ⊢
      omega
    rw [← htot]
    exact hupd
  | updateGoal sender g =>
    simp only [SavingsVault.vaultStep, SavingsVault.updateGoal] at h
    split_ifs at h with h1 h2
    injection h with h'
    subst h'
    simp only [Bool.not_eq_false] at h1
    have hble := sumsTo_apply_le hs sender
    have habal : activeBal s sender = (s.accounts sender).currentBalance := by
      simp [activeBal, h1]
    rw [activeBal_eq_update rfl]
    have hupd := sumsTo_update hs sender ((s.accounts sender).currentBalance)
    have hV : (if ({ s.accounts sender with weeklyGoal := g
        } : UserAccount).isActive = true
        then ({ s.accounts sender with weeklyGoal := g
          } : UserAccount).currentBalance else 0)
        = (s.accounts sender).currentBalance := by
      simp [h1]
    rw [hV]
    have htot : s.totalValueLocked - activeBal s sender +
        (s.accounts sender).currentBalance = s.totalValueLocked := by
      rw [habal] at hble ⊢
      omega
    rw [← htot]
    exact hupd
  | updateTrustMode sender tm =>
    simp only [SavingsVault.vaultStep, SavingsVault.updateTrustMode] at h
    split_ifs at h with h1
    injection h with h'
    subst h'
    simp only [Bool.not_eq_false] at h1
    have hble := sumsTo_apply_le hs sender
    have habal : activeBal s sender = (s.accounts sender).currentBalance := by
      simp [activeBal, h1]
    rw [activeBal_eq_update rfl]
    have hupd := sumsTo_update hs sender ((s.accounts sender).currentBalance)
    have hV : (if ({ s.accounts sender with trustMode := tm
        } : UserAccount).isActive = true
        then ({ s.accounts sender with trustMode := tm
          } : UserAccount).currentBalance else 0)
        = (s.accounts sender).currentBalance := by
      simp [h1]
    rw [hV]
    have htot : s.totalValueLocked - activeBal s sender +
        (s.accounts sender).currentBalance = s.totalValueLocked := by
      rw [habal] at hble ⊢
      omega
    rw [← htot]
    exact hupd
  | autoSave sender user amount now =>
    simp only [SavingsVault.vaultStep, SavingsVault.autoSave] at h
    split_ifs at h with h1 h2 h3 h4 h5 h6 h7 h8 h9
    all_goals (
      injection h with h'
      subst h'
      simp only [Bool.not_eq_false] at h2
      have hble := sumsTo_apply_le hs user
      have habal : activeBal s user = (s.accounts user).currentBalance := by
        simp [activeBal, h2]
      rw [activeBal_eq_update rfl]
      have hupd := sumsTo_update hs user
        ((s.accounts user).currentBalance + amount)
      have hV : (if ({ s.accounts user with
          totalDeposited := (s.accounts user).totalDeposited + amount,
          currentBalance := (s.accounts user).currentBalance + amount,
          lastSaveTimestamp := now
          } : UserAccount).isActive = true
          then ({ s.accounts user with
            totalDeposited := (s.accounts user).totalDeposited + amount,
            currentBalance := (s.accounts user).currentBalance + amount,
            lastSaveTimestamp := now
            } : UserAccount).currentBalance else 0)
          = (s.accounts user).currentBalance + amount := by
        simp [h2]
      rw [hV]
      have htot : s.totalValueLocked - activeBal s user +
          ((s.accounts user).currentBalance + amount) =
          s.totalValueLocked + amount := by
        rw [habal] at hble ⊢
        omega
      rw [← htot]
      exact hupd)
  | setYieldStrategy sender a =>
    simp only [SavingsVault.vaultStep, SavingsVault.setYieldStrategy] at h
    split_ifs at h
    injection h with h'
    subst h'
    exact hs
  | setX402Executor sender a =>
    simp only [SavingsVault.vaultStep, SavingsVault.setX402Executor] at h
    split_ifs at h
    injection h with h'
    subst h'
    exact hs
  | pause sender =>
    simp only [SavingsVault.vaultStep, SavingsVault.pause] at h
    split_ifs at h
    injection h with h'
    subst h'
    exact hs
  | unpause sender =>
    simp only [SavingsVault.vaultStep, SavingsVault.unpause] at h
    split_ifs at h
    injection h with h'
    subst h'
    exact hs

/-- One transaction (successful or reverted) preserves the per-account
invariant. -/
theorem stepState_accInv (s : VaultState) (op : VOp)
    (hs : ∀ u, accInv (s.accounts u)) (u : Nat) :
    accInv ((SavingsVault.stepState s op).accounts u) := by
  unfold SavingsVault.stepState
  cases h : SavingsVault.vaultStep s op with
  | error e => exact hs u
  | ok s' => exact vaultStep_accInv h hs u

/-- Transaction sequences preserve the per-account invariant. -/
theorem vaultRun_accInv (ops : List VOp) (s : VaultState)
    (hs : ∀ u, accInv (s.accounts u)) (u : Nat) :
    accInv ((SavingsVault.vaultRun s ops).accounts u) := by
  induction ops generalizing s with
  | nil => exact hs u
  | cons op ops ih =>
    exact ih (SavingsVault.stepState s op)
      (fun v => stepState_accInv s op hs v)

/-- One transaction (successful or reverted) preserves the TVL sum. -/
theorem stepState_tvl (s : VaultState) (op : VOp)
    (hs : sumsTo (activeBal s) s.totalValueLocked) :
    sumsTo (activeBal (SavingsVault.stepState s op))
      (SavingsVault.stepState s op).totalValueLocked := by
  unfold SavingsVault.stepState
  cases h : SavingsVault.vaultStep s op with
  | error e => exact hs
  | ok s' => exact vaultStep_tvl h hs

/-- Transaction sequences preserve the TVL sum. -/
theorem vaultRun_tvl (ops : List VOp) (s : VaultState)
    (hs : sumsTo (activeBal s) s.totalValueLocked) :
    sumsTo (activeBal (SavingsVault.vaultRun s ops))
      (SavingsVault.vaultRun s ops).totalValueLocked := by
  induction ops generalizing s with
  | nil => exact hs
  | cons op ops ih =>
    exact ih (SavingsVault.stepState s op) (stepState_tvl s op hs)

set_option maxHeartbeats 1000000 in
/-- No transaction ever clears an account's `isActive` flag. -/
theorem stepState_isActive_mono (s : VaultState) (op : VOp) (u : Nat)
    (hu : (s.accounts u).isActive = true) :
    ((SavingsVault.stepState s op).accounts u).isActive = true := by
  unfold SavingsVault.stepState
  cases h : SavingsVault.vaultStep s op with
  | error e => exact hu
  | ok s' =>
    cases op with
    | createAccount sender g b tm =>
      simp only [SavingsVault.vaultStep, SavingsVault.createAccount] at h
      split_ifs at h
      injection h with h'
      subst h'
      by_cases huk : u = sender
      · subst huk
        simp [Function.update_same]
      · simp [Function.update_noteq huk, hu]
    | deposit sender amount =>
      simp only [SavingsVault.vaultStep, SavingsVault.deposit] at h
      split_ifs at h
      injection h with h'
      subst h'
      by_cases huk : u = sender
      · subst huk
        simp [Function.update_same, hu]
      · simp [Function.update_noteq huk, hu]
    | withdraw sender amount =>
      simp only [SavingsVault.vaultStep, SavingsVault.withdraw] at h
      split_ifs at h
      injection h with h'
      subst h'
      by_cases huk : u = sender
      · subst huk
        simp [Function.update_same, hu]
      · simp [Function.update_noteq huk, hu]
    | updateGoal sender g =>
      simp only [SavingsVault.vaultStep, SavingsVault.updateGoal] at h
      split_ifs at h
      injection h with h'
      subst h'
      by_cases huk : u = sender
      · subst huk
        simp [Function.update_same, hu]
      · simp [Function.update_noteq huk, hu]
    | updateTrustMode sender tm =>
      simp only [SavingsVault.vaultStep, SavingsVault.updateTrustMode] at h
      split_ifs at h
      injection h with h'
      subst h'
      by_cases huk : u = sender
      · subst huk
        simp [Function.update_same, hu]
      · simp [Function.update_noteq huk, hu]
    | autoSave sender user amount now =>
      simp only [SavingsVault.vaultStep, SavingsVault.autoSave] at h
      split_ifs at h
      all_goals (
        injection h with h'
        subst h'
        by_cases huk : u = user
        · subst huk
          simp [Function.update_same, hu]
        · simp [Function.update_noteq huk, hu])
    | setYieldStrategy sender a =>
      simp only [SavingsVault.vaultStep, SavingsVault.setYieldStrategy] at h
      split_ifs at h
      injection h with h'
      subst h'
      exact hu
    | setX402Executor sender a =>
      simp only [SavingsVault.vaultStep, SavingsVault.setX402Executor] at h
      split_ifs at h
      injection h with h'
      subst h'
      exact hu
    | pause sender =>
      simp only [SavingsVault.vaultStep, SavingsVault.pause] at h
      split_ifs at h
      injection h with h'
      subst h'
      exact hu
    | unpause sender =>
      simp only [SavingsVault.vaultStep, SavingsVault.unpause] at h
      split_ifs at h
      injection h with h'
      subst h'
      exact hu

set_option maxHeartbeats 1000000 in
/-- A transaction that is not a `createAccount` sent by `u` leaves `u`'s
`isActive` flag exactly as it was. -/
theorem stepState_isActive_nocreate (s : VaultState) (op : VOp) (u : Nat)
    (hop : SavingsVault.isCreateBy u op = false) :
    ((SavingsVault.stepState s op).accounts u).isActive =
      (s.accounts u).isActive := by
  unfold SavingsVault.stepState
  cases h : SavingsVault.vaultStep s op with
  | error e => rfl
  | ok s' =>
    cases op with
    | createAccount sender g b tm =>
      have hne : sender ≠ u := by
        simpa [SavingsVault.isCreateBy] using hop
      simp only [SavingsVault.vaultStep, SavingsVault.createAccount] at h
      split_ifs at h
      injection h with h'
      subst h'
      simp [Function.update_noteq (fun e => hne e.symm)]
    | deposit sender amount =>
      simp only [SavingsVault.vaultStep, SavingsVault.deposit] at h
      split_ifs at h
      injection h with h'
      subst h'
      by_cases huk : u = sender
      · subst huk
        simp [Function.update_same]
      · simp [Function.update_noteq huk]
    | withdraw sender amount =>
      simp only [SavingsVault.vaultStep, SavingsVault.withdraw] at h
      split_ifs at h
      injection h with h'
      subst h'
      by_cases huk : u = sender
      · subst huk
        simp [Function.update_same]
      · simp [Function.update_noteq huk]
    | updateGoal sender g =>
      simp only [SavingsVault.vaultStep, SavingsVault.updateGoal] at h
      split_ifs at h
      injection h with h'
      subst h'
      by_cases huk : u = sender
      · subst huk
        simp [Function.update_same]
      · simp [Function.update_noteq huk]
    | updateTrustMode sender tm =>
      simp only [SavingsVault.vaultStep, SavingsVault.updateTrustMode] at h
      split_ifs at h
      injection h with h'
      subst h'
      by_cases huk : u = sender
      · subst huk
        simp [Function.update_same]
      · simp [Function.update_noteq huk]
    | autoSave sender user amount now =>
      simp only [SavingsVault.vaultStep, SavingsVault.autoSave] at h
      split_ifs at h
      all_goals (
        injection h with h'
        subst h'
        by_cases huk : u = user
        · subst huk
          simp [Function.update_same]
        · simp [Function.update_noteq huk])
    | setYieldStrategy sender a =>
      simp only [SavingsVault.vaultStep, SavingsVault.setYieldStrategy] at h
      split_ifs at h
      injection h with h'
      subst h'
      rfl
    | setX402Executor sender a =>
      simp only [SavingsVault.vaultStep, SavingsVault.setX402Executor] at h
      split_ifs at h
      injection h with h'
      subst h'
      rfl
    | pause sender =>
      simp only [SavingsVault.vaultStep, SavingsVault.pause] at h
      split_ifs at h
      injection h with h'
      subst h'
      rfl
    | unpause sender =>
      simp only [SavingsVault.vaultStep, SavingsVault.unpause] at h
      split_ifs at h
      injection h with h'
      subst h'
      rfl

/-- Activity is monotone along any transaction sequence. -/
theorem vaultRun_isActive_mono (ops : List VOp) (s : VaultState) (u : Nat)
    (hu : (s.accounts u).isActive = true) :
    ((SavingsVault.vaultRun s ops).accounts u).isActive = true := by
  induction ops generalizing s with
  | nil => exact hu
  | cons op ops ih =>
    exact ih (SavingsVault.stepState s op)
      (stepState_isActive_mono s op u hu)

/-- Without a `createAccount` from `u`, `u`'s activity flag never
changes along a transaction sequence. -/
theorem vaultRun_isActive_nocreate (ops : List VOp) (s : VaultState)
    (u : Nat) (hops : ∀ op ∈ ops, SavingsVault.isCreateBy u op = false) :
    ((SavingsVault.vaultRun s ops).accounts u).isActive =
      (s.accounts u).isActive := by
  induction ops generalizing s with
  | nil => rfl
  | cons op ops ih =>
    rw [show SavingsVault.vaultRun s (op :: ops) =
      SavingsVault.vaultRun (SavingsVault.stepState s op) ops from rfl]
    rw [ih (SavingsVault.stepState s op)
      (fun o ho => hops o (List.mem_cons_of_mem op ho))]
    exact stepState_isActive_nocreate s op u
      (hops op (List.mem_cons_self op ops))

/-- Every successful strategy transaction preserves the share-sum
invariant. -/
theorem stratStep_shares {s s' : StratState} {op : SOp}
    (h : VVSYieldStrategy.stratStep s op = .ok s')
    (hs : sumsTo s.s_userLiquidityTokens s.s_totalLiquidityTokens) :
    sumsTo s'.s_userLiquidityTokens s'.s_totalLiquidityTokens := by
  cases op with
  | deposit sender user amount liq =>
    simp only [VVSYieldStrategy.stratStep, VVSYieldStrategy.deposit] at h
    split_ifs at h
    injection h with h'
    subst h'
    have hble := sumsTo_apply_le hs user
    have hupd := sumsTo_update hs user (s.s_userLiquidityTokens user + liq)
    have htot : s.s_totalLiquidityTokens - s.s_userLiquidityTokens user +
        (s.s_userLiquidityTokens user + liq) =
        s.s_totalLiquidityTokens + liq := by omega
    rw [htot] at hupd
    exact hupd
  | withdraw sender user liq =>
    simp only [VVSYieldStrategy.stratStep, VVSYieldStrategy.withdraw] at h
    split_ifs at h with h1 h2 h3 h4
    injection h with h'
    subst h'
    have hble := sumsTo_apply_le hs user
    have hupd := sumsTo_update hs user (s.s_userLiquidityTokens user - liq)
    have htot : s.s_totalLiquidityTokens - s.s_userLiquidityTokens user +
        (s.s_userLiquidityTokens user - liq) =
        s.s_totalLiquidityTokens - liq := by omega
    rw [htot] at hupd
    exact hupd
  | setSavingsVault sender a =>
    simp only [VVSYieldStrategy.stratStep, VVSYieldStrategy.setSavingsVault] at h
    split_ifs at h
    injection h with h'
    subst h'
    exact hs
  | setSlippageTolerance sender bps =>
    simp only [VVSYieldStrategy.stratStep,
      VVSYieldStrategy.setSlippageTolerance] at h
    split_ifs at h
    injection h with h'
    subst h'
    exact hs

/-- One strategy transaction (successful or reverted) preserves the
share-sum invariant. -/
theorem stratStepState_shares (s : StratState) (op : SOp)
    (hs : sumsTo s.s_userLiquidityTokens s.s_totalLiquidityTokens) :
    sumsTo (VVSYieldStrategy.stepState s op).s_userLiquidityTokens
      (VVSYieldStrategy.stepState s op).s_totalLiquidityTokens := by
  unfold VVSYieldStrategy.stepState
  cases h : VVSYieldStrategy.stratStep s op with
  | error e => exact hs
  | ok s' => exact stratStep_shares h hs

/-- Strategy transaction sequences preserve the share-sum invariant. -/
theorem stratRun_shares (ops : List SOp) (s : StratState)
    (hs : sumsTo s.s_userLiquidityTokens s.s_totalLiquidityTokens) :
    sumsTo (VVSYieldStrategy.stratRun s ops).s_userLiquidityTokens
      (VVSYieldStrategy.stratRun s ops).s_totalLiquidityTokens := by
  induction ops generalizing s with
  | nil => exact hs
  | cons op ops ih =>
    exact ih (VVSYieldStrategy.stepState s op)
      (stratStepState_shares s op hs)

/-- C1: for every account and after every sequence of ledger operations
(createAccount, deposit, withdraw, autoSave, updateGoal,
updateTrustMode, and the admin operations) starting from a fresh vault,
`currentBalance = totalDeposited - totalWithdrawn` and the balance never
goes below zero: over `Nat` this is `totalWithdrawn ≤ totalDeposited`
together with `currentBalance + totalWithdrawn = totalDeposited`
(`accInv`).  Reverted operations leave the state unchanged, so the
invariant holds at every observable point; `withdraw`'s explicit balance
check is what keeps any single operation from driving the balance
negative. -/
theorem c1_ledger_balance_invariant (deployer : Nat) (ops : List VOp)
    (u : Nat) :
    accInv ((SavingsVault.vaultRun (SavingsVault.init deployer) ops).accounts u) :=
  vaultRun_accInv ops (SavingsVault.init deployer)
    (fun _ => ⟨Nat.le.refl, rfl⟩) u

/-- Witness: the invariant evaluated on a concrete trace (create,
deposit 2 USDC, withdraw 0.5 USDC by address 1). -/
theorem c1_ledger_balance_invariant_witness :
    accInv ((SavingsVault.vaultRun (SavingsVault.init 0)
      [VOp.createAccount 1 100000000 50000000 TrustMode.MANUAL,
       VOp.deposit 1 2000000, VOp.withdraw 1 500000]).accounts 1) :=
  c1_ledger_balance_invariant 0
    [VOp.createAccount 1 100000000 50000000 TrustMode.MANUAL,
     VOp.deposit 1 2000000, VOp.withdraw 1 500000] 1

/-- C2: after every sequence of Pool-Share Strategy operations from a
fresh strategy, the `s_userLiquidityTokens` balances sum to
`s_totalLiquidityTokens` (over every finite set covering all owners
with nonzero shares).  Share balances are `Nat` in this model exactly
as they are `uint256` in the source, and `withdraw`'s explicit
insufficient-liquidity check keeps any balance from going negative. -/
theorem c2_pool_share_sum_invariant (deployer : Nat) (ops : List SOp) :
    sumsTo
      (VVSYieldStrategy.stratRun (VVSYieldStrategy.init deployer) ops).s_userLiquidityTokens
      (VVSYieldStrategy.stratRun (VVSYieldStrategy.init deployer) ops).s_totalLiquidityTokens :=
  stratRun_shares ops (VVSYieldStrategy.init deployer)
    ⟨⟨∅, fun _ _ => rfl⟩, fun S _ => by
      simp [VVSYieldStrategy.init]⟩

/-- Witness: the share-sum invariant evaluated on a concrete trace
(vault binding, one pool deposit minting 30 shares, one withdrawal of
10 shares). -/
theorem c2_pool_share_sum_invariant_witness :
    sumsTo
      (VVSYieldStrategy.stratRun (VVSYieldStrategy.init 0)
        [SOp.setSavingsVault 0 4, SOp.deposit 4 1 2000000 30,
         SOp.withdraw 4 1 10]).s_userLiquidityTokens
      (VVSYieldStrategy.stratRun (VVSYieldStrategy.init 0)
        [SOp.setSavingsVault 0 4, SOp.deposit 4 1 2000000 30,
         SOp.withdraw 4 1 10]).s_totalLiquidityTokens :=
  c2_pool_share_sum_invariant 0
    [SOp.setSavingsVault 0 4, SOp.deposit 4 1 2000000 30,
     SOp.withdraw 4 1 10]

/-- C7: after every sequence of ledger operations from a fresh vault,
`totalValueLocked` equals the sum of `currentBalance` over active
accounts (`activeBal`, which is `0` on inactive accounts — the vault
holds no funds for them).  The vault in this version never routes funds
to the strategy, and `totalValueLocked` counts only vault-held funds. -/
theorem c7_tvl_equals_active_balances (deployer : Nat) (ops : List VOp) :
    sumsTo (activeBal (SavingsVault.vaultRun (SavingsVault.init deployer) ops))
      (SavingsVault.vaultRun (SavingsVault.init deployer) ops).totalValueLocked :=
  vaultRun_tvl ops (SavingsVault.init deployer)
    ⟨⟨∅, fun _ _ => by simp [activeBal, SavingsVault.init, SavingsVault.emptyAccount]⟩,
     fun S _ => by simp [activeBal, SavingsVault.init, SavingsVault.emptyAccount]⟩

/-- Witness: the TVL invariant evaluated on a concrete trace. -/
theorem c7_tvl_equals_active_balances_witness :
    sumsTo (activeBal (SavingsVault.vaultRun (SavingsVault.init 0)
      [VOp.createAccount 1 100000000 50000000 TrustMode.MANUAL,
       VOp.deposit 1 2000000, VOp.withdraw 1 500000]))
      (SavingsVault.vaultRun (SavingsVault.init 0)
        [VOp.createAccount 1 100000000 50000000 TrustMode.MANUAL,
         VOp.deposit 1 2000000, VOp.withdraw 1 500000]).totalValueLocked :=
  c7_tvl_equals_active_balances 0
    [VOp.createAccount 1 100000000 50000000 TrustMode.MANUAL,
     VOp.deposit 1 2000000, VOp.withdraw 1 500000]

/-- C3: for `autoSave` on an active account with a valid amount and the
pause inactive: in AUTO trust mode a caller other than the configured
x402 executor fails `UnauthorizedCaller`, and in MANUAL mode a caller
other than the account owner fails `UnauthorizedCaller`; in both cases
the transaction reverts and the state is unchanged. -/
theorem c3_autosave_authorization (s : VaultState)
    (sender user amount now : Nat)
    (hp : s.paused = false)
    (ha : (s.accounts user).isActive = true)
    (h0 : amount ≠ 0)
    (hm : amount ≤ SavingsVault.MAX_SAVE_AMOUNT)
    (hauth : ((s.accounts user).trustMode = TrustMode.AUTO ∧
        sender ≠ s.x402Executor) ∨
      ((s.accounts user).trustMode = TrustMode.MANUAL ∧ sender ≠ user)) :
    SavingsVault.autoSave s sender user amount now =
      .error .unauthorizedCaller ∧
    SavingsVault.vaultRun s [VOp.autoSave sender user amount now] = s := by
  have hmain : SavingsVault.autoSave s sender user amount now =
      .error .unauthorizedCaller := by
    unfold SavingsVault.autoSave
    rw [if_neg (by simp [hp]), if_neg (by simp [ha]),
      if_neg (by push_neg; exact ⟨h0, hm⟩)]
    rcases hauth with ⟨hmode, hne⟩ | ⟨hmode, hne⟩
    · rw [if_pos (by rw [hmode]; simpa using hne)]
    · rw [if_pos (by rw [hmode]; simpa using hne)]
  refine ⟨hmain, ?_⟩
  simp [SavingsVault.vaultRun, SavingsVault.stepState,
    SavingsVault.vaultStep, hmain]

/-- Witness: on `demoVault3` (AUTO account at 1, executor 7) a call from
address 9 is rejected with no state change. -/
theorem c3_autosave_authorization_witness :
    SavingsVault.autoSave demoVault3 9 1 1000000 100000 =
      .error .unauthorizedCaller ∧
    SavingsVault.vaultRun demoVault3 [VOp.autoSave 9 1 1000000 100000] =
      demoVault3 :=
  c3_autosave_authorization demoVault3 9 1 1000000 100000 rfl rfl
    (by decide) (by decide) (Or.inl ⟨rfl, by decide⟩)

/-- C4: when the pause, activity, amount and authorization checks all
pass but `now < lastSaveTimestamp + MIN_SAVE_INTERVAL` (24 hours, with
the checked addition not overflowing), `autoSave` fails
`SaveIntervalNotMet` and the whole state — accounts, `totalValueLocked`
and `lastSaveTimestamp` included — is unchanged. -/
theorem c4_autosave_rate_limit (s : VaultState)
    (sender user amount now : Nat)
    (hp : s.paused = false)
    (ha : (s.accounts user).isActive = true)
    (h0 : amount ≠ 0)
    (hm : amount ≤ SavingsVault.MAX_SAVE_AMOUNT)
    (hauth : SavingsVault.autoSaveAuthorized s sender user)
    (hofl : (s.accounts user).lastSaveTimestamp +
      SavingsVault.MIN_SAVE_INTERVAL < U256)
    (hrl : now < (s.accounts user).lastSaveTimestamp +
      SavingsVault.MIN_SAVE_INTERVAL) :
    SavingsVault.autoSave s sender user amount now =
      .error .saveIntervalNotMet ∧
    SavingsVault.vaultRun s [VOp.autoSave sender user amount now] = s := by
  have hmain : SavingsVault.autoSave s sender user amount now =
      .error .saveIntervalNotMet := by
    unfold SavingsVault.autoSave
    rw [if_neg (by simp [hp]), if_neg (by simp [ha]),
      if_neg (by push_neg; exact ⟨h0, hm⟩)]
    rw [if_neg ?hauthneg, if_neg (by omega), if_pos hrl]
    case hauthneg =>
      unfold SavingsVault.autoSaveAuthorized at hauth
      split_ifs at hauth ⊢ with hc
      · simpa using hauth
      · simpa using hauth
  refine ⟨hmain, ?_⟩
  simp [SavingsVault.vaultRun, SavingsVault.stepState,
    SavingsVault.vaultStep, hmain]

/-- Witness: on `demoVault4` (last save at time 1000) an authorized
executor call at time 1001 is rate-limited with no state change. -/
theorem c4_autosave_rate_limit_witness :
    SavingsVault.autoSave demoVault4 7 1 1000000 1001 =
      .error .saveIntervalNotMet ∧
    SavingsVault.vaultRun demoVault4 [VOp.autoSave 7 1 1000000 1001] =
      demoVault4 :=
  c4_autosave_rate_limit demoVault4 7 1 1000000 1001 rfl rfl
    (by decide) (by decide) rfl (by decide) (by decide)

/-- C5 (amended): while the global pause is active, the vault's
`deposit`, `withdraw` and `autoSave` fail with the paused error, and
that check takes precedence over every other check on those paths
(no other hypotheses are needed); but `createAccount`, `updateGoal`
and `updateTrustMode` carry no pause gate and never produce the paused
error, and reads (`getAccount`) remain available.  The Pool-Share
Strategy has no pause mechanism at all, so its `deposit`/`withdraw`
are likewise unaffected by the vault's pause. -/
theorem c5_pause_gating (s : VaultState) (hp : s.paused = true) :
    (∀ sender amount, SavingsVault.deposit s sender amount =
      .error .enforcedPause) ∧
    (∀ sender amount, SavingsVault.withdraw s sender amount =
      .error .enforcedPause) ∧
    (∀ sender user amount now, SavingsVault.autoSave s sender user amount now =
      .error .enforcedPause) ∧
    (∀ sender g b tm, SavingsVault.createAccount s sender g b tm ≠
      .error .enforcedPause) ∧
    (∀ sender g, SavingsVault.updateGoal s sender g ≠
      .error .enforcedPause) ∧
    (∀ sender tm, SavingsVault.updateTrustMode s sender tm ≠
      .error .enforcedPause) ∧
    (∀ user, SavingsVault.getAccount s user = s.accounts user) := by
  refine ⟨?_, ?_, ?_, ?_, ?_, ?_, fun _ => rfl⟩
  · intro sender amount
    unfold SavingsVault.deposit
    rw [if_pos hp]
  · intro sender amount
    unfold SavingsVault.withdraw
    rw [if_pos hp]
  · intro sender user amount now
    unfold SavingsVault.autoSave
    rw [if_pos hp]
  · intro sender g b tm h
    unfold SavingsVault.createAccount at h
    split_ifs at h <;> simp at h
  · intro sender g h
    unfold SavingsVault.updateGoal at h
    split_ifs at h <;> simp at h
  · intro sender tm h
    unfold SavingsVault.updateTrustMode at h
    split_ifs at h
    simp at h

/-- Counterexample to C5 as stated: `demoVault5` is paused, yet
`updateGoal` (a mutating ledger operation) succeeds instead of failing
with the paused error. -/
theorem c5_pause_gating_counterexample :
    demoVault5.paused = true ∧
    (SavingsVault.updateGoal demoVault5 1 50000000).isOk = true :=
  ⟨rfl, rfl⟩

/-- Witness: on the paused `demoVault5`, `deposit` fails with the
paused error before any other check. -/
theorem c5_pause_gating_witness :
    SavingsVault.deposit demoVault5 1 2000000 = .error .enforcedPause ∧
    SavingsVault.updateGoal demoVault5 1 50000000 ≠
      .error .enforcedPause :=
  ⟨(c5_pause_gating demoVault5 rfl).1 1 2000000,
   (c5_pause_gating demoVault5 rfl).2.2.2.2.1 1 50000000⟩

/-- C6 (amended): for an account that has never auto-saved
(`lastSaveTimestamp` holds its initial value `0`), the rate-limit check
of `autoSave` is satisfied whenever the current time is at least
`MIN_SAVE_INTERVAL` (86400, i.e. any realistic block timestamp), so the
first `autoSave` then never fails with the rate-limit error.  (At times
strictly below 86400 the check `now < 0 + MIN_SAVE_INTERVAL` does fire,
so the unconditional form of the claim is false.) -/
theorem c6_first_autosave_after_interval (s : VaultState)
    (sender user amount now : Nat)
    (hnever : (s.accounts user).lastSaveTimestamp = 0)
    (hnow : SavingsVault.MIN_SAVE_INTERVAL ≤ now) :
    SavingsVault.autoSave s sender user amount now ≠
      .error .saveIntervalNotMet := by
  intro h
  unfold SavingsVault.autoSave at h
  split_ifs at h with c1 c2 c3 c4 c5 c6 c7 c8 c9
  all_goals try omega
  all_goals simp at h

/-- Counterexample to C6 as stated: on `demoVault6` the account has
never auto-saved, every other check passes, yet the very first
authorized `autoSave` at time 0 fails with the rate-limit error, so
the first call is not rate-limit-free "regardless of the current
time". -/
theorem c6_first_autosave_counterexample :
    (demoVault6.accounts 1).lastSaveTimestamp = 0 ∧
    SavingsVault.autoSave demoVault6 5 1 1000000 0 =
      .error .saveIntervalNotMet :=
  ⟨rfl, rfl⟩

/-- Witness: on `demoVault6` at time 86400 the first `autoSave` does
not fail with the rate-limit error. -/
theorem c6_first_autosave_after_interval_witness :
    SavingsVault.autoSave demoVault6 5 1 1000000 86400 ≠
      .error .saveIntervalNotMet :=
  c6_first_autosave_after_interval demoVault6 5 1 1000000 86400 rfl
    (by decide)

/-- C8: for every snapshot passing the pre-checks (active, AUTO trust
mode, rate limit satisfied) whose available funds
`walletBalance - safetyBuffer` (clamped at 0) reach `minSaveAmount`,
the Decision Engine under the default BALANCED profile decides from
`optimalAmount = min(availableFunds * 50%, weeklyGoal, availableFunds)`:
it saves exactly that amount when it reaches `minSaveAmount` and skips
otherwise.  The witness instantiates spec Scenario D
(wallet 1000.00, buffer 100.00, goal 25.00 → saves 25.00). -/
theorem c8_balanced_decision (st : UserFinancialState)
    (h1 : st.isActive = true)
    (h2 : st.trustMode = TrustMode.AUTO)
    (h3 : st.canAutoSave = true)
    (h4 : DecisionEngine.defaultContext.minSaveAmount ≤
      st.walletBalance - st.safetyBuffer) :
    ((DecisionEngine.decide DecisionEngine.defaultContext st).shouldSave =
        true ↔
      DecisionEngine.defaultContext.minSaveAmount ≤
        min (min ((st.walletBalance - st.safetyBuffer) * 50 / 100)
          st.weeklyGoal) (st.walletBalance - st.safetyBuffer)) ∧
    (DecisionEngine.decide DecisionEngine.defaultContext st).amount =
      (if DecisionEngine.defaultContext.minSaveAmount ≤
          min (min ((st.walletBalance - st.safetyBuffer) * 50 / 100)
            st.weeklyGoal) (st.walletBalance - st.safetyBuffer)
        then min (min ((st.walletBalance - st.safetyBuffer) * 50 / 100)
          st.weeklyGoal) (st.walletBalance - st.safetyBuffer)
        else 0) := by
  have h4' : ¬(DecisionEngine.calculateAvailableFunds st <
      DecisionEngine.defaultContext.minSaveAmount) := by
    unfold DecisionEngine.calculateAvailableFunds
    omega
  unfold DecisionEngine.decide
  rw [if_neg (by simp [h1]), if_neg (by simp [h2]), if_neg (by simp [h3]),
    if_neg h4']
  constructor
  · simp [DecisionEngine.calculateOptimalAmount,
      DecisionEngine.balancedStrategy, DecisionEngine.calculateAvailableFunds,
      DecisionEngine.defaultContext]
  · simp [DecisionEngine.calculateOptimalAmount,
      DecisionEngine.balancedStrategy, DecisionEngine.calculateAvailableFunds,
      DecisionEngine.defaultContext]

/-- Witness: Scenario D — available 900.00, optimal
`min(450.00, 25.00, 900.00) = 25.00`, saved with `shouldSave = true`. -/
theorem c8_balanced_decision_witness :
    (DecisionEngine.decide DecisionEngine.defaultContext scenarioD).shouldSave =
      true ∧
    (DecisionEngine.decide DecisionEngine.defaultContext scenarioD).amount =
      25000000 := by
  have h := c8_balanced_decision scenarioD rfl rfl rfl (by decide)
  exact ⟨h.1.mpr (by decide), by rw [h.2]; decide⟩

/-- C9: `setSlippageTolerance(bps)` called by the owner fails
`SlippageTooHigh` for every `bps` above the hard ceiling of 500 basis
points, leaving the stored tolerance (and all state) unchanged, and for
every `bps ≤ 500` succeeds, storing exactly `bps`. -/
theorem c9_slippage_tolerance_cap (s : StratState) (sender bps : Nat)
    (hown : sender = s.owner) :
    (500 < bps →
      VVSYieldStrategy.setSlippageTolerance s sender bps =
        .error .slippageTooHigh ∧
      VVSYieldStrategy.stratRun s [SOp.setSlippageTolerance sender bps] = s) ∧
    (bps ≤ 500 →
      VVSYieldStrategy.setSlippageTolerance s sender bps =
        .ok { s with s_slippageTolerance := bps }) := by
  constructor
  · intro hhi
    have hmain : VVSYieldStrategy.setSlippageTolerance s sender bps =
        .error .slippageTooHigh := by
      unfold VVSYieldStrategy.setSlippageTolerance
      rw [if_neg (by simp [hown]), if_pos hhi]
    refine ⟨hmain, ?_⟩
    simp [VVSYieldStrategy.stratRun, VVSYieldStrategy.stepState,
      VVSYieldStrategy.stratStep, hmain]
  · intro hlo
    unfold VVSYieldStrategy.setSlippageTolerance
    rw [if_neg (by simp [hown]), if_neg (by omega)]

/-- Witness: on a fresh strategy owned by 0, `bps = 501` is rejected
with no state change while `bps = 100` is stored. -/
theorem c9_slippage_tolerance_cap_witness :
    VVSYieldStrategy.setSlippageTolerance demoStrat 0 501 =
      .error .slippageTooHigh ∧
    VVSYieldStrategy.setSlippageTolerance demoStrat 0 100 =
      .ok { demoStrat with s_slippageTolerance := 100 } :=
  ⟨((c9_slippage_tolerance_cap demoStrat 0 501 rfl).1 (by decide)).1,
   (c9_slippage_tolerance_cap demoStrat 0 100 rfl).2 (by decide)⟩

set_option maxHeartbeats 2000000 in
/-- C10: no ledger operation ever clears an account's `isActive` flag:
activity is monotone along every transaction sequence; from a fresh
vault an identity that never sent `createAccount` stays inactive
forever; and each of `deposit`, `withdraw`, `updateGoal`,
`updateTrustMode` and `autoSave` fails `AccountNotActive` only when the
targeted account's flag is `false` — hence only for identities that
never successfully created an account. -/
theorem c10_no_deactivation (deployer : Nat) (ops : List VOp) (u : Nat) :
    (∀ s : VaultState, (s.accounts u).isActive = true →
      ((SavingsVault.vaultRun s ops).accounts u).isActive = true) ∧
    ((∀ op ∈ ops, SavingsVault.isCreateBy u op = false) →
      ((SavingsVault.vaultRun (SavingsVault.init deployer) ops).accounts u).isActive =
        false) ∧
    (∀ s sender amount, SavingsVault.deposit s sender amount =
        .error .accountNotActive → (s.accounts sender).isActive = false) ∧
    (∀ s sender amount, SavingsVault.withdraw s sender amount =
        .error .accountNotActive → (s.accounts sender).isActive = false) ∧
    (∀ s sender g, SavingsVault.updateGoal s sender g =
        .error .accountNotActive → (s.accounts sender).isActive = false) ∧
    (∀ s sender tm, SavingsVault.updateTrustMode s sender tm =
        .error .accountNotActive → (s.accounts sender).isActive = false) ∧
    (∀ s sender user amount now,
      SavingsVault.autoSave s sender user amount now =
        .error .accountNotActive → (s.accounts user).isActive = false) := by
  refine ⟨fun s hu => vaultRun_isActive_mono ops s u hu,
    fun hops => ?_, ?_, ?_, ?_, ?_, ?_⟩
  · rw [vaultRun_isActive_nocreate ops (SavingsVault.init deployer) u hops]
    rfl
  · intro s sender amount h
    unfold SavingsVault.deposit at h
    split_ifs at h
    all_goals first
      | assumption
      | simp at h
  · intro s sender amount h
    unfold SavingsVault.withdraw at h
    split_ifs at h
    all_goals first
      | assumption
      | simp at h
  · intro s sender g h
    unfold SavingsVault.updateGoal at h
    split_ifs at h
    all_goals first
      | assumption
      | simp at h
  · intro s sender tm h
    unfold SavingsVault.updateTrustMode at h
    split_ifs at h
    assumption
  · intro s sender user amount now h
    unfold SavingsVault.autoSave at h
    split_ifs at h
    all_goals first
      | assumption
      | simp at h

/-- Witness: an identity that never created an account (address 1, who
only sent a deposit) is still inactive afterwards. -/
theorem c10_no_deactivation_witness :
    ((SavingsVault.vaultRun (SavingsVault.init 0)
      [VOp.deposit 1 2000000]).accounts 1).isActive = false :=
  (c10_no_deactivation 0 [VOp.deposit 1 2000000] 1).2.1 (by decide)
